import Mathlib

/-!
Shallow embedding of the syslog-ng configuration compiler found in
`modules/syslog_ng.py` (the `_build_config` recursion and its helper
predicates), together with proofs about the emitted text.

The Python module is Python 2 code.  Points of the dynamic semantics that
matter for the embedding and that we model explicitly:

* `isinstance(b, int)` is `True` for booleans (`bool` is a subclass of
  `int`), so the `_is_int_parameter` test also accepts booleans;
* `str + x` raises `TypeError` unless `x` is a string;
* `str.join` with a comma-space separator raises `TypeError` unless every element is a string;
* `d.keys()[0]` raises `IndexError` on an empty dict;
* `float(x)` succeeds on every int/float/bool, and on a string exactly when
  the string parses under the float literal grammar (otherwise `ValueError`);
* `state_stack[-1]` raises `IndexError` on an empty list.

Exceptions are modelled with `Except`; the recursion is modelled with a
fuel parameter (every call consumes one unit; the public entry point
supplies fuel that is far larger than the number of calls any tree of its
size can make, and all general theorems are fuel-generic).

YAML mapping keys in this module are strings, so dict keys are embedded as
`String` and Python's `isinstance(parent, str)` test on a key is constant
true.  Python dicts are embedded as association lists in document order;
`d.keys()[0]` takes the head.  Floats never participate in arithmetic in
this code, only in `str()` formatting, so a float value is carried as its
Python string form.
-/

namespace SyslogNg

/-- A parsed YAML document node: scalar (string / int / float / bool),
sequence, or mapping. -/
inductive Node where
  | str (s : String)
  | int (n : Int)
  | float (form : String)
  | bool (b : Bool)
  | list (xs : List Node)
  | dict (kvs : List (String × Node))

/-- The failure modes of the compiler: the module's own typed
`SyslogNgError` and `SaltInvocationError`, the untyped Python faults it can
run into (`TypeError`, `IndexError`, `AttributeError`), and the
out-of-fuel artifact of the embedding (never reached with the fuel the
entry point supplies). -/
inductive PyErr where
  | syslogNgError (msg : String)
  | saltInvocationError (msg : String)
  | typeError
  | indexError
  | attributeError
  | outOfFuel
  deriving DecidableEq

/-- Python `isinstance(x, dict)` -/
def isDict : Node → Bool
  | .dict _ => true
  | _ => false

/-- Python `isinstance(x, list)` -/
def isList : Node → Bool
  | .list _ => true
  | _ => false

/-- Python `isinstance(x, str)` -/
def isStr : Node → Bool
  | .str _ => true
  | _ => false

/-- Python `isinstance(x, int)` — true for booleans too: Python bool is a
subclass of int. -/
def isIntPy : Node → Bool
  | .int _ => true
  | .bool _ => true
  | _ => false

/-- Python `isinstance(x, bool)` -/
def isBool : Node → Bool
  | .bool _ => true
  | _ => false

/-- Models `_STATEMENT_NAMES` from the module. -/
def STATEMENT_NAMES : List String :=
  ["source", "destination", "log", "parser", "rewrite",
   "template", "channel", "junction", "filter", "options"]

/-- Models `_is_statement_unnamed`: the four statements that never receive the
declared id. -/
def is_statement_unnamed (statement : String) : Bool :=
  ["log", "channel", "junction", "options"].contains statement

/-- Models `_is_all_element_has_type(container, type_)`, with the runtime type
test passed as a predicate. -/
def is_all_element_has_type (container : List Node) (type_ : Node → Bool) : Bool :=
  container.all type_

/-- Models `_is_simple_type`: str, int, float or bool. -/
def is_simple_type : Node → Bool
  | .str _ => true
  | .int _ => true
  | .float _ => true
  | .bool _ => true
  | _ => false

/-- Models `_is_statement(name, content)`: `name` is a recognized statement name
and `content` is a list that is either all dicts, or has more than one
element, a str-or-dict head, and an all-dicts tail. -/
def is_statement (name : String) (content : Node) : Bool :=
  STATEMENT_NAMES.contains name &&
    (match content with
     | .list xs =>
         is_all_element_has_type xs isDict ||
           (decide (xs.length > 1) && is_all_element_has_type (xs.drop 1) isDict &&
             (match xs.head? with
              | some h => isStr h || isDict h
              | none => false))
     | _ => false)

/-- Models `_is_reference(parent, this, state_stack)`.  `isinstance(parent, str)`
is constant true in this embedding (keys are strings).  The caller has
already ruled out an empty stack (see `build_config`), so `state_stack[-1]`
is read with `getLast?`. -/
def is_reference (this : Node) (state_stack : List Nat) : Bool :=
  is_simple_type this && state_stack.getLast? == some 0

/-- Models `_is_options(parent, this, state_stack)`. -/
def is_options (this : Node) (state_stack : List Nat) : Bool :=
  isList this && state_stack.getLast? == some 0

/-- Models `_are_parameters(this, state_stack)`. -/
def are_parameters (this : Node) (state_stack : List Nat) : Bool :=
  isList this && state_stack.getLast? == some 1

/-- Models `_is_simple_parameter(this, state_stack)`. -/
def is_simple_parameter (this : Node) (state_stack : List Nat) : Bool :=
  state_stack.getLast? == some 2 && is_simple_type this

/-- Models `_is_complex_parameter(this, state_stack)`. -/
def is_complex_parameter (this : Node) (state_stack : List Nat) : Bool :=
  state_stack.getLast? == some 2 && isDict this

/-- Models `_is_list_parameter(this, state_stack)`. -/
def is_list_parameter (this : Node) (state_stack : List Nat) : Bool :=
  state_stack.getLast? == some 3 && isList this

/-- Models `_is_string_parameter(this, state_stack)`. -/
def is_string_parameter (this : Node) (state_stack : List Nat) : Bool :=
  state_stack.getLast? == some 3 && isStr this

/-- Models `_is_int_parameter(this, state_stack)` — note `isIntPy` also accepts
booleans, exactly as `isinstance(this, int)` does in Python. -/
def is_int_parameter (this : Node) (state_stack : List Nat) : Bool :=
  state_stack.getLast? == some 3 && isIntPy this

/-- Models `_is_boolean_parameter(this, state_stack)`. -/
def is_boolean_parameter (this : Node) (state_stack : List Nat) : Bool :=
  state_stack.getLast? == some 3 && isBool this

/-- Models `_string_needs_quotation(string)`: does the string contain one of
the characters of `need_quotation_chars`. -/
def string_needs_quotation (string : String) : Bool :=
  "$@:/.".toList.any (fun i => string.toList.contains i)

/-- Models `_build_string_parameter(this)`. -/
def build_string_parameter (this : String) : String :=
  if string_needs_quotation this then "\"" ++ this ++ "\"" else this

/-- Python `str(x)` for the scalar nodes this module formats (references and
int-classified leaves are guarded to scalars before being formatted;
containers are never formatted, so they get a dummy value). -/
def pyStr : Node → String
  | .str s => s
  | .int n => toString n
  | .float form => form
  | .bool b => if b then "True" else "False"
  | .list _ => ""
  | .dict _ => ""

/-- Leading/trailing whitespace stripping performed by Python `float(str)`. -/
def stripChars (cs : List Char) : List Char :=
  ((cs.dropWhile Char.isWhitespace).reverse.dropWhile Char.isWhitespace).reverse

/-- Drop one optional leading sign. -/
def dropSign : List Char → List Char
  | '+' :: t => t
  | '-' :: t => t
  | cs => cs

/-- A nonempty run of decimal digits. -/
def digitsNonempty (cs : List Char) : Bool :=
  !cs.isEmpty && cs.all Char.isDigit

/-- The mantissa part of a float literal: digits with at most one decimal
point and at least one digit. -/
def mantissaOk (cs : List Char) : Bool :=
  let ip := cs.takeWhile Char.isDigit
  let rest := cs.dropWhile Char.isDigit
  match rest with
  | [] => !ip.isEmpty
  | '.' :: frac => frac.all Char.isDigit && (!ip.isEmpty || !frac.isEmpty)
  | _ => false

/-- The exponent part after `e`/`E`: optional sign then digits. -/
def expPartOk (cs : List Char) : Bool :=
  digitsNonempty (dropSign cs)

/-- Does Python `float(s)` succeed on the string `s` (as opposed to
raising `ValueError`)?  Whitespace is stripped, one sign is allowed, the
body is `inf`/`infinity`/`nan` (case-insensitive) or a decimal mantissa
with an optional exponent. -/
def pyFloatParses (s : String) : Bool :=
  let body := dropSign (stripChars s.toList)
  let lb := body.map Char.toLower
  if lb == ['i', 'n', 'f'] || lb == ['i', 'n', 'f', 'i', 'n', 'i', 't', 'y'] ||
      lb == ['n', 'a', 'n'] then
    true
  else
    let m := body.takeWhile (fun c => c != 'e' && c != 'E')
    let rest := body.dropWhile (fun c => c != 'e' && c != 'E')
    match rest with
    | [] => mantissaOk m
    | _ :: ex => mantissaOk m && expPartOk ex

/-- Models `_build_simple_parameter(this, indent)`:
`float(this)` is attempted first; if it succeeds the code returns
`indent + this`, which is a `TypeError` unless `this` is a string (only
`ValueError` is caught).  On `ValueError` (a non-numeric string), the
string is quoted when it needs quotation and emitted plain otherwise.
`float` of a list/dict raises `TypeError` directly. -/
def build_simple_parameter (this : Node) (indent : String) : Except PyErr String :=
  match this with
  | .str s =>
      if pyFloatParses s then .ok (indent ++ s)
      else if string_needs_quotation s then .ok (indent ++ "\"" ++ s ++ "\"")
      else .ok (indent ++ s)
  | .int _ => .error .typeError
  | .float _ => .error .typeError
  | .bool _ => .error .typeError
  | .list _ => .error .typeError
  | .dict _ => .error .typeError

/-- Python `str.join` with separator `sep`: a `TypeError` unless every element is a string. -/
def pyJoin (sep : String) (xs : List Node) : Except PyErr String :=
  if xs.all isStr then .ok (String.intercalate sep (xs.map pyStr))
  else .error .typeError

/-- Python string repetition `s * n`: `n` copies of the block `s`. -/
def strMul (s : String) : Nat → String
  | 0 => ""
  | n + 1 => s ++ strMul s n

/-- The indentation `_build_config` computes:
three spaces repeated `deepness` times, with `deepness = len(state_stack) - 1`. -/
def indentOf (state_stack : List Nat) : String :=
  strMul "   " (state_stack.length - 1)

mutual

/-- Models `_build_config(salt_id, parent, this, state_stack)`: the dispatch over
the classification predicates.  The returned pair carries the built text
and the final value of the (mutated) `state_stack`.  The `state_stack[-1]`
read inside `_is_reference` raises `IndexError` when the stack is empty,
which is checked once the `_is_statement` test (which does not look at the
stack) has failed. -/
def build_config : Nat → String → String → Node → List Nat →
    Except PyErr (String × List Nat)
  | 0, _, _, _, _ => .error .outOfFuel
  | fuel + 1, salt_id, parent, this, state_stack =>
    if is_statement parent this then
      match this with
      | .list xs =>
          build_statement fuel salt_id parent xs (indentOf state_stack) state_stack
      | _ => .error .typeError
    else if state_stack.isEmpty then
      .error .indexError
    else if is_reference this state_stack then
      .ok (indentOf state_stack ++ parent ++ "(" ++ pyStr this ++ ");", state_stack)
    else if is_options this state_stack then
      build_options fuel salt_id parent this (indentOf state_stack) state_stack
    else if are_parameters this state_stack then
      match this with
      | .list xs => build_parameters fuel salt_id parent xs state_stack
      | _ => .error .typeError
    else if is_simple_parameter this state_stack then
      (build_simple_parameter this (indentOf state_stack)).map
        (fun s => (s, state_stack))
    else if is_complex_parameter this state_stack then
      build_complex_parameter fuel salt_id this (indentOf state_stack) state_stack
    else if is_list_parameter this state_stack then
      match this with
      | .list xs => (pyJoin ", " xs).map (fun s => (s, state_stack))
      | _ => .error .typeError
    else if is_string_parameter this state_stack then
      match this with
      | .str s => .ok (build_string_parameter s, state_stack)
      | _ => .error .typeError
    else if is_int_parameter this state_stack then
      .ok (pyStr this, state_stack)
    else if is_boolean_parameter this state_stack then
      match this with
      | .bool b => .ok (if b then "no" else "yes", state_stack)
      | _ => .error .typeError
    else
      .error (.syslogNgError
        "Unhandled case while generating configuration from YAML to syslog-ng format")

/-- Models `_build_statement(id, parent, this, indent, buffer, state_stack)`:
header line (with the declared id only for a named statement with a
single-element stack), then the fragments of the dict elements of the
body, then `<indent>};`. -/
def build_statement : Nat → String → String → List Node → String → List Nat →
    Except PyErr (String × List Nat)
  | 0, _, _, _, _, _ => .error .outOfFuel
  | fuel + 1, id, parent, this, indent, state_stack =>
    (build_statement_items fuel id this state_stack).map
      (fun p =>
        ((if is_statement_unnamed parent || decide (state_stack.length > 1) then
            indent ++ parent ++ " \x7b\n"
          else
            indent ++ parent ++ " " ++ id ++ " \x7b\n") ++
          p.1 ++ indent ++ "\x7d;", p.2))

/-- The `for i in this` loop of `_build_statement`: dict elements are
recursed into around an `append(0)`/`pop()` pair; non-dict elements are
skipped.  `i.keys()[0]` raises `IndexError` on an empty dict. -/
def build_statement_items : Nat → String → List Node → List Nat →
    Except PyErr (String × List Nat)
  | 0, _, _, _ => .error .outOfFuel
  | fuel + 1, id, items, state_stack =>
    match items with
    | [] => .ok ("", state_stack)
    | i :: rest =>
      match i with
      | .dict [] => .error .indexError
      | .dict ((key, value) :: _) =>
          (build_config fuel id key value (state_stack ++ [0])).bind
            (fun p =>
              (build_statement_items fuel id rest p.2.dropLast).map
                (fun q => (p.1 ++ q.1, q.2)))
      | _ => build_statement_items fuel id rest state_stack

/-- Models `_build_complex_parameter(id, this, indent, state_stack)`:
`append(3)`, take the single key/value pair (`keys()[0]` raises
`IndexError` on an empty dict, and a non-dict has no `keys` attribute),
wrap the recursion in `<indent><key>(` and `)`, `pop()`. -/
def build_complex_parameter : Nat → String → Node → String → List Nat →
    Except PyErr (String × List Nat)
  | 0, _, _, _, _ => .error .outOfFuel
  | fuel + 1, id, this, indent, state_stack =>
    match this with
    | .dict [] => .error .indexError
    | .dict ((key, value) :: _) =>
        (build_config fuel id key value (state_stack ++ [3])).map
          (fun p => (indent ++ key ++ "(" ++ p.1 ++ ")", p.2.dropLast))
    | _ => .error .attributeError

/-- Models `_build_parameters(id, parent, this, buffer, state_stack)`:
`append(2)`, build each element, join with `,\n`, `pop()`. -/
def build_parameters : Nat → String → String → List Node → List Nat →
    Except PyErr (String × List Nat)
  | 0, _, _, _, _ => .error .outOfFuel
  | fuel + 1, id, parent, this, state_stack =>
    (build_params_list fuel id parent this (state_stack ++ [2])).map
      (fun p => (String.intercalate ",\n" p.1, p.2.dropLast))

/-- The list comprehension inside `_build_parameters`, with the shared
mutable stack threaded through the element builds. -/
def build_params_list : Nat → String → String → List Node → List Nat →
    Except PyErr (List String × List Nat)
  | 0, _, _, _, _ => .error .outOfFuel
  | fuel + 1, id, parent, items, state_stack =>
    match items with
    | [] => .ok ([], state_stack)
    | i :: rest =>
      (build_config fuel id parent i state_stack).bind
        (fun p =>
          (build_params_list fuel id parent rest p.2).map
            (fun q => (p.1 :: q.1, q.2)))

/-- Models `_build_options(id, parent, this, indent, buffer, state_stack)`:
`append(1)`, `<indent><parent>(\n`, the recursion plus a newline,
`<indent>);\n`, `pop()`. -/
def build_options : Nat → String → String → Node → String → List Nat →
    Except PyErr (String × List Nat)
  | 0, _, _, _, _, _ => .error .outOfFuel
  | fuel + 1, id, parent, this, indent, state_stack =>
    (build_config fuel id parent this (state_stack ++ [1])).map
      (fun p =>
        (indent ++ parent ++ "(\n" ++ p.1 ++ "\n" ++ indent ++ ");\n",
          p.2.dropLast))

end

mutual

/-- A size measure on nodes, used only to hand the entry point enough
fuel. -/
def nodeSize : Node → Nat
  | .str _ => 1
  | .int _ => 1
  | .float _ => 1
  | .bool _ => 1
  | .list xs => 1 + nodeListSize xs
  | .dict kvs => 1 + nodeKvsSize kvs

def nodeListSize : List Node → Nat
  | [] => 0
  | x :: xs => 1 + nodeSize x + nodeListSize xs

def nodeKvsSize : List (String × Node) → Nat
  | [] => 0
  | (_, v) :: kvs => 1 + nodeSize v + nodeKvsSize kvs

end

/-- The compilation part of the public `config(name, config, write)`
function: reject a non-dict root with `SaltInvocationError`, take
`config.keys()[0]` (an `IndexError` on an empty dict; further keys are
ignored), and run `_build_config` with the fresh stack `[0]`.  The file
write performed for `write=True` is I/O outside this embedding;
`config_build` returns the built text (the `changes` value of the state
result). -/
def config_build (name : String) (config : Node) : Except PyErr String :=
  match config with
  | .dict [] => .error .indexError
  | .dict ((statement, body) :: _) =>
      (build_config (8 * nodeSize (Node.dict [(statement, body)]) + 64)
          name statement body [0]).map (fun p => p.1)
  | _ => .error (.saltInvocationError "The config parameter must be a dictionary")

/-- The example document of the specification:
`{"source": [{"id": "s_local"}, {"file": ["/var/log/messages"]}]}`. -/
def exampleDoc : Node :=
  Node.dict [("source", Node.list
    [Node.dict [("id", Node.str "s_local")],
     Node.dict [("file", Node.list [Node.str "/var/log/messages"])]])]

/-- The text the example actually compiles to. -/
def exampleActual : String :=
  "source s1 \x7b\n   id(s_local);   file(\n         \"/var/log/messages\"\n   );\n\x7d;"

/-- The five-line text the specification example shows. -/
def exampleClaimed : String :=
  "source s1 \x7b\n   file(\n\"/var/log/messages\"\n);\n\x7d;"

/-- Does a result carry the module's typed `SyslogNgError`? -/
def isUnhandledFailure : Except PyErr (String × List Nat) → Bool
  | .error (.syslogNgError _) => true
  | _ => false

/-- Does a compile result carry the typed invalid-input rejection
(`SaltInvocationError`)? -/
def isInvalidInputFailure : Except PyErr String → Bool
  | .error (.saltInvocationError _) => true
  | _ => false

/-! ### Helper lemmas -/

theorem isEmpty_false_of_getLast {st : List Nat} {k : Nat}
    (h : st.getLast? = some k) : st.isEmpty = false := by
  cases st <;> simp_all

theorem strMul_three_length (n : Nat) : (strMul "   " n).length = 3 * n := by
  induction n with
  | zero => rfl
  | succ m ih =>
      have h3 : ("   " : String).length = 3 := rfl
      simp only [strMul, String.length_append, ih, h3]
      omega

theorem strMul_three_spaces (n : Nat) :
    (strMul "   " n).toList.all (fun c => c = ' ') = true := by
  induction n with
  | zero => rfl
  | succ m ih =>
      simp only [strMul, String.toList, String.data_append, List.all_append,
        Bool.and_eq_true] at ih ⊢
      exact ⟨by decide, ih⟩

/-! ### Claim theorems -/

/-- Claim C1: the claim says a boolean leaf at stack top 3 is emitted as `no`
(for true) / `yes` (for false).  The code instead emits Python `str` of
the boolean: `_is_int_parameter` is tested before `_is_boolean_parameter`
and `isinstance(True, int)` holds, so the `no`/`yes` branch is dead code.
At the failing input, the leaf emits `True` / `False`, and a full compile
of `{"source": [{"file": [{"keep-alive": true}]}]}` embeds `keep-alive(True)`. -/
theorem C1_bool_leaf_emits_str :
    build_config 5 "s1" "keep-alive" (Node.bool true) [0, 0, 1, 2, 3] =
      .ok ("True", [0, 0, 1, 2, 3]) ∧
    build_config 5 "s1" "keep-alive" (Node.bool false) [0, 0, 1, 2, 3] =
      .ok ("False", [0, 0, 1, 2, 3]) ∧
    config_build "s1" (Node.dict [("source", Node.list
        [Node.dict [("file", Node.list
          [Node.dict [("keep-alive", Node.bool true)]])]])]) =
      .ok "source s1 \x7b\n   file(\n         keep-alive(True)\n   );\n\x7d;" :=
  ⟨rfl, rfl, rfl⟩

/-- Claim C2 counterexample: the example document does not compile to the
five-line text the claim shows — the `id` element is emitted as a
reference with no trailing newline, the quoted string line carries nine
leading spaces, and the `);` line carries three. -/
theorem C2_example_counterexample :
    config_build "s1" exampleDoc = .ok exampleActual ∧
    exampleActual ≠ exampleClaimed :=
  ⟨rfl, by decide⟩

/-- Claim C2 amended: compiling the example with declared id `s1` yields exactly
`source s1 \x7b` newline `   id(s_local);   file(` newline nine spaces and
the double-quoted path, newline `   );`, newline `\x7d;`. -/
theorem C2_example_output : config_build "s1" exampleDoc = .ok exampleActual :=
  rfl

/-- Claim C7: a float value at nesting-stack top 3 matches none of the leaf
rules, so emission fails with the typed `SyslogNgError` (and `Except`
propagates the failure: the compile call returns no output text, as the
concrete whole-tree compile in the second conjunct shows). -/
theorem C7_float_at_depth3_fails (f : Nat) (id p r : String) (st : List Nat)
    (h : st.getLast? = some 3) :
    build_config (f + 1) id p (Node.float r) st =
      .error (.syslogNgError
        "Unhandled case while generating configuration from YAML to syslog-ng format") ∧
    config_build "s1" (Node.dict [("source", Node.list
        [Node.dict [("file", Node.list
          [Node.dict [("freq", Node.float "1.5")]])]])]) =
      .error (.syslogNgError
        "Unhandled case while generating configuration from YAML to syslog-ng format") := by
  have hne : st.isEmpty = false := isEmpty_false_of_getLast h
  have e0 : ((some 3 : Option Nat) == some 0) = false := by decide
  have e1 : ((some 3 : Option Nat) == some 1) = false := by decide
  have e2 : ((some 3 : Option Nat) == some 2) = false := by decide
  have e3 : ((some 3 : Option Nat) == some 3) = true := by decide
  refine ⟨?_, rfl⟩
  simp [build_config, is_statement, is_reference, is_options, are_parameters,
    is_simple_parameter, is_complex_parameter, is_list_parameter,
    is_string_parameter, is_int_parameter, is_boolean_parameter,
    is_simple_type, isList, isStr, isIntPy, isBool, isDict, hne, h,
    e0, e1, e2, e3]

/-- Claim C7 witness: the theorem applied at a concrete stack and float. -/
theorem C7_witness :
    ([0, 0, 1, 2, 3] : List Nat).getLast? = some 3 ∧
    build_config 1 "s1" "freq" (Node.float "1.5") [0, 0, 1, 2, 3] =
      .error (.syslogNgError
        "Unhandled case while generating configuration from YAML to syslog-ng format") :=
  ⟨rfl, (C7_float_at_depth3_fails 0 "s1" "freq" "1.5" [0, 0, 1, 2, 3] rfl).1⟩

/-- Claim C8: the indentation the emitter computes is a function of the stack
length alone — `strMul "   " (len - 1)` — its length is exactly three
spaces per level below the top, and it consists of spaces only. -/
theorem C8_indentation (st : List Nat) :
    (indentOf st).length = 3 * (st.length - 1) ∧
    (indentOf st).toList.all (fun c => c = ' ') = true ∧
    (∀ st' : List Nat, st.length = st'.length → indentOf st = indentOf st') := by
  refine ⟨strMul_three_length _, strMul_three_spaces _, ?_⟩
  intro st' hlen
  simp [indentOf, hlen]

/-- Claim C8 witness: a depth-4 stack gets nine spaces of indentation, and two
stacks of equal length get the same indentation. -/
theorem C8_witness :
    (indentOf [0, 0, 1, 2]).length = 3 * (([0, 0, 1, 2] : List Nat).length - 1) ∧
    ([0, 0, 1, 2] : List Nat).length = ([3, 3, 3, 3] : List Nat).length ∧
    indentOf [0, 0, 1, 2] = indentOf [3, 3, 3, 3] :=
  ⟨(C8_indentation [0, 0, 1, 2]).1, rfl,
    (C8_indentation [0, 0, 1, 2]).2.2 [3, 3, 3, 3] rfl⟩

/-- A simple-typed node is not a dict. -/
theorem isDict_false_of_simple {x : Node} (h : is_simple_type x = true) :
    isDict x = false := by
  cases x <;> simp_all [is_simple_type, isDict]

/-- Claim C3 counterexample: the string `"3.5"` contains `.` yet is emitted
unquoted as a simple parameter at stack top 2, because `float("3.5")`
succeeds and short-circuits the quotation test. -/
theorem C3_numeric_string_counterexample :
    build_config 5 "s1" "p" (Node.str "3.5") [0, 0, 1, 2] =
      .ok ("         3.5", [0, 0, 1, 2]) ∧
    string_needs_quotation "3.5" = true ∧
    ("         3.5".toList.contains '\"') = false :=
  ⟨rfl, by decide, by decide⟩

/-- Claim C3 amended: a string leaf at stack top 3 is quoted exactly when it
contains one of `$@:/.`; a simple string parameter at stack top 2 is
quoted exactly when it contains one of those characters AND Python
`float()` rejects it — a float-parseable string is emitted unquoted even
when it contains `.`. -/
theorem C3_amended_quoting (f : Nat) (id p s : String) (st : List Nat) :
    (st.getLast? = some 3 →
      build_config (f + 1) id p (Node.str s) st =
        .ok ((if string_needs_quotation s then "\"" ++ s ++ "\"" else s), st)) ∧
    (st.getLast? = some 2 →
      build_config (f + 1) id p (Node.str s) st =
        .ok (indentOf st ++
          (if string_needs_quotation s && !pyFloatParses s
           then "\"" ++ s ++ "\"" else s), st)) := by
  constructor
  · intro h
    have hne := isEmpty_false_of_getLast h
    have e0 : ((some 3 : Option Nat) == some 0) = false := by decide
    have e1 : ((some 3 : Option Nat) == some 1) = false := by decide
    have e2 : ((some 3 : Option Nat) == some 2) = false := by decide
    have e3 : ((some 3 : Option Nat) == some 3) = true := by decide
    simp [build_config, is_statement, is_reference, is_options, are_parameters,
      is_simple_parameter, is_complex_parameter, is_list_parameter,
      is_string_parameter, build_string_parameter,
      is_simple_type, isList, isStr, isDict, hne, h, e0, e1, e2, e3]
  · intro h
    have hne := isEmpty_false_of_getLast h
    have e0 : ((some 2 : Option Nat) == some 0) = false := by decide
    have e1 : ((some 2 : Option Nat) == some 1) = false := by decide
    have e2 : ((some 2 : Option Nat) == some 2) = true := by decide
    by_cases hp : pyFloatParses s
    · simp [build_config, is_statement, is_reference, is_options, are_parameters,
        is_simple_parameter, build_simple_parameter, Except.map,
        is_simple_type, isList, isStr, isDict, hne, h, hp, e0, e1, e2]
    · by_cases hq : string_needs_quotation s
      · simp [build_config, is_statement, is_reference, is_options, are_parameters,
          is_simple_parameter, build_simple_parameter, String.append_assoc,
          Except.map, is_simple_type, isList, isStr, isDict, hne, h, hp, hq, e0, e1, e2]
      · simp [build_config, is_statement, is_reference, is_options, are_parameters,
          is_simple_parameter, build_simple_parameter, Except.map,
          is_simple_type, isList, isStr, isDict, hne, h, hp, hq, e0, e1, e2]

/-- Claim C3 witness: a path string at stack top 3 is emitted quoted. -/
theorem C3_witness :
    ([0, 0, 1, 2, 3] : List Nat).getLast? = some 3 ∧
    build_config 1 "s1" "file" (Node.str "/var/log") [0, 0, 1, 2, 3] =
      .ok ("\"/var/log\"", [0, 0, 1, 2, 3]) :=
  ⟨rfl, (C3_amended_quoting 0 "s1" "file" "/var/log" [0, 0, 1, 2, 3]).1 rfl⟩

/-- Claim C4 counterexample: an integer classified as a simple parameter at
stack top 2 fails with an untyped `TypeError` (string concatenation of
`indent + this`), which is neither a successful emission nor the module's
typed `SyslogNgError`. -/
theorem C4_untyped_fault_counterexample :
    build_config 5 "s1" "port" (Node.int 514) [0, 0, 1, 2] = .error .typeError ∧
    (build_config 5 "s1" "port" (Node.int 514) [0, 0, 1, 2]).isOk = false ∧
    isUnhandledFailure (build_config 5 "s1" "port" (Node.int 514) [0, 0, 1, 2]) = false :=
  ⟨rfl, rfl, rfl⟩

/-- Claim C4 amended: rule selection is not total over reachable triples — an
integer or boolean scalar at stack top 2 fails with an untyped
`TypeError` (string concatenation), as does a stack-top-3 sequence of
non-string scalars (the `join` call); the typed `SyslogNgError`, when raised,
carries only a fixed message with neither parent key nor stack depth. -/
theorem C4_amended_untyped_faults (f : Nat) (id p : String) (st : List Nat) :
    (∀ n : Int, st.getLast? = some 2 →
      build_config (f + 1) id p (Node.int n) st = .error .typeError) ∧
    (∀ b : Bool, st.getLast? = some 2 →
      build_config (f + 1) id p (Node.bool b) st = .error .typeError) ∧
    (∀ xs : List Node, st.getLast? = some 3 → xs ≠ [] →
      xs.all (fun x => is_simple_type x && !isStr x) = true →
      build_config (f + 1) id p (Node.list xs) st = .error .typeError) := by
  have e20 : ((some 2 : Option Nat) == some 0) = false := by decide
  have e21 : ((some 2 : Option Nat) == some 1) = false := by decide
  have e22 : ((some 2 : Option Nat) == some 2) = true := by decide
  have e30 : ((some 3 : Option Nat) == some 0) = false := by decide
  have e31 : ((some 3 : Option Nat) == some 1) = false := by decide
  have e32 : ((some 3 : Option Nat) == some 2) = false := by decide
  have e33 : ((some 3 : Option Nat) == some 3) = true := by decide
  refine ⟨?_, ?_, ?_⟩
  · intro n h
    have hne := isEmpty_false_of_getLast h
    simp [build_config, is_statement, is_reference, is_options, are_parameters,
      is_simple_parameter, build_simple_parameter, Except.map,
      is_simple_type, isList, isStr, isDict, hne, h, e20, e21, e22]
  · intro b h
    have hne := isEmpty_false_of_getLast h
    simp [build_config, is_statement, is_reference, is_options, are_parameters,
      is_simple_parameter, build_simple_parameter, Except.map,
      is_simple_type, isList, isStr, isDict, hne, h, e20, e21, e22]
  · intro xs h hnil hall
    have hne := isEmpty_false_of_getLast h
    obtain ⟨x, t, rfl⟩ : ∃ x t, xs = x :: t := by
      cases xs with
      | nil => exact absurd rfl hnil
      | cons x t => exact ⟨x, t, rfl⟩
    have hx : is_simple_type x = true ∧ isStr x = false := by
      simp [List.all_cons, Bool.and_eq_true] at hall
      exact ⟨hall.1.1, by simpa using hall.1.2⟩
    have hd : isDict x = false := isDict_false_of_simple hx.1
    have hs : isStr x = false := hx.2
    have hstat : is_statement p (Node.list (x :: t)) = false := by
      simp [is_statement, is_all_element_has_type, List.all_cons, hd, hs]
    have href : is_reference (Node.list (x :: t)) st = false := by
      simp [is_reference, is_simple_type]
    have hopt : is_options (Node.list (x :: t)) st = false := by
      simp [is_options, isList, h, e30]
    have hpar : are_parameters (Node.list (x :: t)) st = false := by
      simp [are_parameters, isList, h, e31]
    have hsim : is_simple_parameter (Node.list (x :: t)) st = false := by
      simp [is_simple_parameter, is_simple_type, h, e32]
    have hcpx : is_complex_parameter (Node.list (x :: t)) st = false := by
      simp [is_complex_parameter, isDict, h, e32]
    have hlst : is_list_parameter (Node.list (x :: t)) st = true := by
      simp [is_list_parameter, isList, h, e33]
    have hjoin : pyJoin ", " (x :: t) = .error .typeError := by
      simp [pyJoin, List.all_cons, hs]
    simp [build_config, Except.map, hne, hstat, href, hopt, hpar, hsim, hcpx, hlst,
      hjoin]

/-- Claim C4 witness: the integer case at a concrete reachable stack. -/
theorem C4_witness :
    ([0, 0, 1, 2] : List Nat).getLast? = some 2 ∧
    build_config 1 "s1" "port" (Node.int 514) [0, 0, 1, 2] = .error .typeError :=
  ⟨rfl, (C4_amended_untyped_faults 0 "s1" "port" [0, 0, 1, 2]).1 514 rfl⟩

/-- Claim C5 counterexample: a zero-key mapping is not rejected with the typed
invalid-input failure — extracting `config.keys()[0]` raises an untyped
`IndexError`. -/
theorem C5_zero_key_counterexample :
    config_build "s1" (Node.dict []) = .error .indexError ∧
    isInvalidInputFailure (config_build "s1" (Node.dict [])) = false :=
  ⟨rfl, rfl⟩

/-- Claim C5 amended: only a non-mapping root is rejected with the typed
`SaltInvocationError` before traversal; a zero-key mapping fails with an
untyped `IndexError` while extracting its first key; a multi-key mapping
is not rejected at all — its first key is compiled and the rest are
ignored. -/
theorem C5_amended_input_validation (name : String) (cfg : Node) :
    (isDict cfg = false →
      config_build name cfg =
        .error (.saltInvocationError "The config parameter must be a dictionary")) ∧
    config_build name (Node.dict []) = .error .indexError ∧
    config_build "n" (Node.dict [("source", Node.list []), ("x", Node.int 0)]) =
      .ok "source n \x7b\n\x7d;" := by
  refine ⟨?_, rfl, rfl⟩
  intro h
  cases cfg <;> simp_all [config_build, isDict]

/-- Claim C5 witness: a string root is rejected with the typed failure. -/
theorem C5_witness :
    isDict (Node.str "x") = false ∧
    config_build "s1" (Node.str "x") =
      .error (.saltInvocationError "The config parameter must be a dictionary") :=
  ⟨rfl, (C5_amended_input_validation "s1" (Node.str "x")).1 rfl⟩

/-- Every successful statement emission is the header line, the
concatenated body fragments, and the `<indent>\x7d;` close. -/
theorem build_statement_shape (f : Nat) (id parent : String) (xs : List Node)
    (indent : String) (st : List Nat) (s : String) (st' : List Nat)
    (h : build_statement f id parent xs indent st = .ok (s, st')) :
    ∃ body, s =
      (if is_statement_unnamed parent || decide (st.length > 1)
       then indent ++ parent ++ " \x7b\n"
       else indent ++ parent ++ " " ++ id ++ " \x7b\n") ++ body ++ indent ++ "\x7d;" := by
  cases f with
  | zero => simp [build_statement] at h
  | succ f =>
      simp only [build_statement] at h
      cases hi : build_statement_items f id xs st with
      | ok pr =>
          rw [hi] at h
          simp only [Except.map, Except.ok.injEq, Prod.mk.injEq] at h
          exact ⟨pr.1, h.1.symm⟩
      | error e => rw [hi] at h; simp [Except.map] at h

/-- Claim C6 counterexample: a recognized statement with an all-mappings body
need not end in a `\x7d;` line of its own, and need not contain one nested
line per body mapping: a reference-valued mapping emits a fragment with no
trailing newline, so the close brace fuses onto its line. -/
theorem C6_reference_body_counterexample :
    build_config 10 "s1" "source" (Node.list [Node.dict [("a", Node.str "x")]]) [0] =
      .ok ("source s1 \x7b\n   a(x);\x7d;", [0]) ∧
    ("\n\x7d;".toList.isSuffixOf "source s1 \x7b\n   a(x);\x7d;".toList) = false :=
  ⟨rfl, by decide⟩

/-- Claim C6 amended: for a recognized keyword compiled at the top level over a
body of mappings, the output is the header line `<kw> <id> \x7b` (named) or
`<kw> \x7b` (unnamed) followed by a newline, then the concatenation of the
fragments of the body mappings, then the characters `\x7d;` — the close brace is
a line of its own only when the last fragment ends in a newline, and
reference fragments do not. -/
theorem C6_amended_statement_block (f : Nat) (id kw : String) (xs : List Node)
    (s : String) (st' : List Nat)
    (hkw : STATEMENT_NAMES.contains kw = true)
    (hxs : xs.all isDict = true)
    (h : build_config (f + 1) id kw (Node.list xs) [0] = .ok (s, st')) :
    ∃ mid, s =
      (if is_statement_unnamed kw then kw ++ " \x7b\n"
       else kw ++ " " ++ id ++ " \x7b\n") ++ mid ++ "\x7d;" := by
  have hst : is_statement kw (Node.list xs) = true := by
    have hmem : kw ∈ STATEMENT_NAMES := by simpa using hkw
    simp [is_statement, is_all_element_has_type, hmem, hxs]
  simp only [build_config, hst, if_true] at h
  obtain ⟨body, hs⟩ := build_statement_shape f id kw xs (indentOf [0]) [0] s st' h
  have hind : indentOf [0] = "" := rfl
  rw [hind] at hs
  refine ⟨body, ?_⟩
  by_cases hu : is_statement_unnamed kw <;>
    simp_all [String.empty_append, String.append_empty]

/-- Claim C6 witness: a named statement at top level with a single mapping
body. -/
theorem C6_witness :
    STATEMENT_NAMES.contains "source" = true ∧
    ([Node.dict [("a", Node.str "x")]].all isDict) = true ∧
    ∃ mid, ("source s1 \x7b\n   a(x);\x7d;" : String) =
      (if is_statement_unnamed "source" then "source" ++ " \x7b\n"
       else "source" ++ " " ++ "s1" ++ " \x7b\n") ++ mid ++ "\x7d;" :=
  ⟨rfl, rfl,
    C6_amended_statement_block 9 "s1" "source" [Node.dict [("a", Node.str "x")]]
      "source s1 \x7b\n   a(x);\x7d;" [0] rfl rfl rfl⟩

/-- Claim C10: whenever a statement is emitted with more than one element on
the nesting stack, its header omits the declared id (first conjunct, for
every recognized keyword); the id appears only in a named statement
emitted with a single-element stack (second conjunct). -/
theorem C10_nested_statement_omits_id (f : Nat) (id kw : String) (xs : List Node)
    (st : List Nat) (s : String) (st' : List Nat)
    (hst : is_statement kw (Node.list xs) = true) :
    (st.length > 1 →
      build_config (f + 1) id kw (Node.list xs) st = .ok (s, st') →
      ∃ rest, s = indentOf st ++ kw ++ " \x7b\n" ++ rest) ∧
    (st.length = 1 → is_statement_unnamed kw = false →
      build_config (f + 1) id kw (Node.list xs) st = .ok (s, st') →
      ∃ rest, s = indentOf st ++ kw ++ " " ++ id ++ " \x7b\n" ++ rest) := by
  constructor
  · intro hlen h
    simp only [build_config, hst, if_true] at h
    obtain ⟨body, hs⟩ := build_statement_shape f id kw xs (indentOf st) st s st' h
    have hd : decide (st.length > 1) = true := decide_eq_true hlen
    rw [hd, Bool.or_true, if_pos rfl] at hs
    exact ⟨body ++ indentOf st ++ "\x7d;", by rw [hs]; simp [String.append_assoc]⟩
  · intro hlen hu h
    simp only [build_config, hst, if_true] at h
    obtain ⟨body, hs⟩ := build_statement_shape f id kw xs (indentOf st) st s st' h
    have hd : decide (st.length > 1) = false := by
      rw [hlen]; decide
    rw [hd, hu, Bool.or_self, if_neg (by simp)] at hs
    exact ⟨body ++ indentOf st ++ "\x7d;", by rw [hs]; simp [String.append_assoc]⟩

/-- Claim C10 witness: a named statement nested one level deep (stack of
length 2) omits the id `s1` from its header. -/
theorem C10_witness :
    is_statement "source" (Node.list [Node.dict [("a", Node.str "x")]]) = true ∧
    ([0, 0] : List Nat).length > 1 ∧
    ∃ rest, ("   source \x7b\n      a(x);   \x7d;" : String) =
      indentOf [0, 0] ++ "source" ++ " \x7b\n" ++ rest := by
  refine ⟨rfl, by decide, ?_⟩
  exact (C10_nested_statement_omits_id 9 "s1" "source"
      [Node.dict [("a", Node.str "x")]] [0, 0]
      "   source \x7b\n      a(x);   \x7d;" [0, 0] rfl).1 (by decide) rfl

/-- Injectivity helper: a successful result pins the returned stack. -/
theorem ok_pair_snd {α : Type} {x : α} {st : List Nat} {r : α × List Nat}
    (h : (Except.ok (x, st) : Except PyErr (α × List Nat)) = .ok r) : r.2 = st := by
  rw [← Except.ok.inj h]

/-- One-step unfolding of `build_config` at positive fuel (the recursion
is structural in the fuel, so this is definitional). -/
theorem build_config_unfold (fuel : Nat) (salt_id parent : String) (nd : Node)
    (st : List Nat) :
    build_config (fuel + 1) salt_id parent nd st =
      (if is_statement parent nd then
        match nd with
        | .list xs => build_statement fuel salt_id parent xs (indentOf st) st
        | _ => .error .typeError
      else if st.isEmpty then
        .error .indexError
      else if is_reference nd st then
        .ok (indentOf st ++ parent ++ "(" ++ pyStr nd ++ ");", st)
      else if is_options nd st then
        build_options fuel salt_id parent nd (indentOf st) st
      else if are_parameters nd st then
        match nd with
        | .list xs => build_parameters fuel salt_id parent xs st
        | _ => .error .typeError
      else if is_simple_parameter nd st then
        (build_simple_parameter nd (indentOf st)).map (fun s => (s, st))
      else if is_complex_parameter nd st then
        build_complex_parameter fuel salt_id nd (indentOf st) st
      else if is_list_parameter nd st then
        match nd with
        | .list xs => (pyJoin ", " xs).map (fun s => (s, st))
        | _ => .error .typeError
      else if is_string_parameter nd st then
        match nd with
        | .str s => .ok (build_string_parameter s, st)
        | _ => .error .typeError
      else if is_int_parameter nd st then
        .ok (pyStr nd, st)
      else if is_boolean_parameter nd st then
        match nd with
        | .bool b => .ok (if b then "no" else "yes", st)
        | _ => .error .typeError
      else
        .error (.syslogNgError
          "Unhandled case while generating configuration from YAML to syslog-ng format")) :=
  rfl

/-- A node passing the statement shape test is a list. -/
theorem list_of_is_statement {p : String} {nd : Node}
    (h : is_statement p nd = true) : ∃ xs, nd = Node.list xs := by
  cases nd <;> first | exact ⟨_, rfl⟩ | simp [is_statement] at h

/-- A node passing the parameter-list test is a list. -/
theorem list_of_are_parameters {nd : Node} {st : List Nat}
    (h : are_parameters nd st = true) : ∃ xs, nd = Node.list xs := by
  cases nd <;> first | exact ⟨_, rfl⟩ | simp [are_parameters, isList] at h

/-- A node passing the list-leaf test is a list. -/
theorem list_of_is_list_parameter {nd : Node} {st : List Nat}
    (h : is_list_parameter nd st = true) : ∃ xs, nd = Node.list xs := by
  cases nd <;> first | exact ⟨_, rfl⟩ | simp [is_list_parameter, isList] at h

/-- A node passing the string-leaf test is a string. -/
theorem str_of_is_string_parameter {nd : Node} {st : List Nat}
    (h : is_string_parameter nd st = true) : ∃ s, nd = Node.str s := by
  cases nd <;> first | exact ⟨_, rfl⟩ | simp [is_string_parameter, isStr] at h

/-- A node passing the boolean-leaf test is a boolean. -/
theorem bool_of_is_boolean_parameter {nd : Node} {st : List Nat}
    (h : is_boolean_parameter nd st = true) : ∃ b, nd = Node.bool b := by
  cases nd <;> first | exact ⟨_, rfl⟩ | simp [is_boolean_parameter, isBool] at h

/-- A map that pairs the payload with a fixed stack returns that stack. -/
theorem except_map_pair_snd {α β : Type} (e : Except PyErr α) (g : α → β)
    (st : List Nat) (r : β × List Nat)
    (h : e.map (fun s => (g s, st)) = .ok r) : r.2 = st := by
  cases e with
  | ok v => simp only [Except.map] at h; exact ok_pair_snd h
  | error e => simp only [Except.map] at h; exact Except.noConfusion h

set_option maxHeartbeats 4000000 in
/-- Every builder that returns normally hands back the stack it was given:
the `append`s performed around the recursive descents are matched by
`pop`s.  Proved for all seven mutually recursive functions by induction on
the fuel. -/
theorem stack_restore (fuel : Nat) :
    (∀ id parent this st r, build_config fuel id parent this st = .ok r → r.2 = st) ∧
    (∀ id parent xs indent st r,
      build_statement fuel id parent xs indent st = .ok r → r.2 = st) ∧
    (∀ id items st r, build_statement_items fuel id items st = .ok r → r.2 = st) ∧
    (∀ id this indent st r,
      build_complex_parameter fuel id this indent st = .ok r → r.2 = st) ∧
    (∀ id parent xs st r, build_parameters fuel id parent xs st = .ok r → r.2 = st) ∧
    (∀ id parent items st r,
      build_params_list fuel id parent items st = .ok r → r.2 = st) ∧
    (∀ id parent this indent st r,
      build_options fuel id parent this indent st = .ok r → r.2 = st) := by
  induction fuel with
  | zero =>
      refine ⟨?_, ?_, ?_, ?_, ?_, ?_, ?_⟩
      · intro id parent this st r h; simp [build_config] at h
      · intro id parent xs indent st r h; simp [build_statement] at h
      · intro id items st r h; simp [build_statement_items] at h
      · intro id this indent st r h; simp [build_complex_parameter] at h
      · intro id parent xs st r h; simp [build_parameters] at h
      · intro id parent items st r h; simp [build_params_list] at h
      · intro id parent this indent st r h; simp [build_options] at h
  | succ f ih =>
      obtain ⟨ihc, ihs, ihi, ihx, ihp, ihl, iho⟩ := ih
      refine ⟨?_, ?_, ?_, ?_, ?_, ?_, ?_⟩
      · intro id parent nd st r h
        rw [build_config_unfold] at h
        by_cases h1 : is_statement parent nd = true
        · rw [if_pos h1] at h
          obtain ⟨xs, rfl⟩ := list_of_is_statement h1
          exact ihs _ _ _ _ _ _ h
        · rw [if_neg h1] at h
          by_cases h2 : st.isEmpty = true
          · rw [if_pos h2] at h; exact Except.noConfusion h
          · rw [if_neg h2] at h
            by_cases h3 : is_reference nd st = true
            · rw [if_pos h3] at h; exact ok_pair_snd h
            · rw [if_neg h3] at h
              by_cases h4 : is_options nd st = true
              · rw [if_pos h4] at h; exact iho _ _ _ _ _ _ h
              · rw [if_neg h4] at h
                by_cases h5 : are_parameters nd st = true
                · rw [if_pos h5] at h
                  obtain ⟨xs, rfl⟩ := list_of_are_parameters h5
                  exact ihp _ _ _ _ _ h
                · rw [if_neg h5] at h
                  by_cases h6 : is_simple_parameter nd st = true
                  · rw [if_pos h6] at h; exact except_map_pair_snd _ _ _ _ h
                  · rw [if_neg h6] at h
                    by_cases h7 : is_complex_parameter nd st = true
                    · rw [if_pos h7] at h; exact ihx _ _ _ _ _ h
                    · rw [if_neg h7] at h
                      by_cases h8 : is_list_parameter nd st = true
                      · rw [if_pos h8] at h
                        obtain ⟨xs, rfl⟩ := list_of_is_list_parameter h8
                        exact except_map_pair_snd _ _ _ _ h
                      · rw [if_neg h8] at h
                        by_cases h9 : is_string_parameter nd st = true
                        · rw [if_pos h9] at h
                          obtain ⟨sv, rfl⟩ := str_of_is_string_parameter h9
                          exact ok_pair_snd h
                        · rw [if_neg h9] at h
                          by_cases h10 : is_int_parameter nd st = true
                          · rw [if_pos h10] at h; exact ok_pair_snd h
                          · rw [if_neg h10] at h
                            by_cases h11 : is_boolean_parameter nd st = true
                            · rw [if_pos h11] at h
                              obtain ⟨bv, rfl⟩ := bool_of_is_boolean_parameter h11
                              exact ok_pair_snd h
                            · rw [if_neg h11] at h; exact Except.noConfusion h
      · intro id parent xs indent st r h
        simp only [build_statement] at h
        cases hi : build_statement_items f id xs st with
        | ok pr =>
            rw [hi] at h
            simp only [Except.map] at h
            exact (ok_pair_snd h).trans (ihi _ _ _ _ hi)
        | error e => rw [hi] at h; exact Except.noConfusion h
      · intro id items st r h
        cases items with
        | nil =>
            simp only [build_statement_items] at h
            exact ok_pair_snd h
        | cons i rest =>
            cases i with
            | dict kvs =>
                cases kvs with
                | nil =>
                    simp only [build_statement_items] at h
                    exact Except.noConfusion h
                | cons kv kvs2 =>
                    obtain ⟨key, value⟩ := kv
                    simp only [build_statement_items] at h
                    cases hc : build_config f id key value (st ++ [0]) with
                    | ok p1 =>
                        rw [hc] at h
                        simp only [Except.bind] at h
                        cases hi2 : build_statement_items f id rest p1.2.dropLast with
                        | ok q1 =>
                            rw [hi2] at h
                            simp only [Except.map] at h
                            have h5 := ok_pair_snd h
                            have h4 : q1.2 = p1.2.dropLast := ihi _ _ _ _ hi2
                            have h2 : p1.2 = st ++ [0] := ihc _ _ _ _ _ hc
                            rw [h5, h4, h2]
                            simp
                        | error e => rw [hi2] at h; exact Except.noConfusion h
                    | error e => rw [hc] at h; exact Except.noConfusion h
            | str sv =>
                simp only [build_statement_items] at h
                exact ihi _ _ _ _ h
            | int nv =>
                simp only [build_statement_items] at h
                exact ihi _ _ _ _ h
            | float fv =>
                simp only [build_statement_items] at h
                exact ihi _ _ _ _ h
            | bool bv =>
                simp only [build_statement_items] at h
                exact ihi _ _ _ _ h
            | list lv =>
                simp only [build_statement_items] at h
                exact ihi _ _ _ _ h
      · intro id nd indent st r h
        cases nd with
        | dict kvs =>
            cases kvs with
            | nil =>
                simp only [build_complex_parameter] at h
                exact Except.noConfusion h
            | cons kv kvs2 =>
                obtain ⟨key, value⟩ := kv
                simp only [build_complex_parameter] at h
                cases hc : build_config f id key value (st ++ [3]) with
                | ok p1 =>
                    rw [hc] at h
                    simp only [Except.map] at h
                    have h5 := ok_pair_snd h
                    have h2 : p1.2 = st ++ [3] := ihc _ _ _ _ _ hc
                    rw [h5, h2]
                    simp
                | error e => rw [hc] at h; exact Except.noConfusion h
        | str sv =>
            simp only [build_complex_parameter] at h
            exact Except.noConfusion h
        | int nv =>
            simp only [build_complex_parameter] at h
            exact Except.noConfusion h
        | float fv =>
            simp only [build_complex_parameter] at h
            exact Except.noConfusion h
        | bool bv =>
            simp only [build_complex_parameter] at h
            exact Except.noConfusion h
        | list lv =>
            simp only [build_complex_parameter] at h
            exact Except.noConfusion h
      · intro id parent xs st r h
        simp only [build_parameters] at h
        cases hl : build_params_list f id parent xs (st ++ [2]) with
        | ok p1 =>
            rw [hl] at h
            simp only [Except.map] at h
            have h5 := ok_pair_snd h
            have h2 : p1.2 = st ++ [2] := ihl _ _ _ _ _ hl
            rw [h5, h2]
            simp
        | error e => rw [hl] at h; exact Except.noConfusion h
      · intro id parent items st r h
        cases items with
        | nil =>
            simp only [build_params_list] at h
            exact ok_pair_snd h
        | cons i rest =>
            simp only [build_params_list] at h
            cases hc : build_config f id parent i st with
            | ok p1 =>
                rw [hc] at h
                simp only [Except.bind] at h
                cases hl2 : build_params_list f id parent rest p1.2 with
                | ok q1 =>
                    rw [hl2] at h
                    simp only [Except.map] at h
                    have h5 := ok_pair_snd h
                    have h4 : q1.2 = p1.2 := ihl _ _ _ _ _ hl2
                    have h2 : p1.2 = st := ihc _ _ _ _ _ hc
                    rw [h5, h4, h2]
                | error e => rw [hl2] at h; exact Except.noConfusion h
            | error e => rw [hc] at h; exact Except.noConfusion h
      · intro id parent nd indent st r h
        simp only [build_options] at h
        cases hc : build_config f id parent nd (st ++ [1]) with
        | ok p1 =>
            rw [hc] at h
            simp only [Except.map] at h
            have h5 := ok_pair_snd h
            have h2 : p1.2 = st ++ [1] := ihc _ _ _ _ _ hc
            rw [h5, h2]
            simp
        | error e => rw [hc] at h; exact Except.noConfusion h

/-- Claim C9: the four emitter operations that push the stack around a
recursive descent (statement bodies, option blocks, parameter lists,
complex parameters) return, on success, with the nesting stack exactly as
it was at entry. -/
theorem C9_stack_balanced (fuel : Nat) (id parent : String) (xs : List Node)
    (this : Node) (indent : String) (st : List Nat) (s : String) (st' : List Nat) :
    (build_statement fuel id parent xs indent st = .ok (s, st') → st' = st) ∧
    (build_options fuel id parent this indent st = .ok (s, st') → st' = st) ∧
    (build_parameters fuel id parent xs st = .ok (s, st') → st' = st) ∧
    (build_complex_parameter fuel id this indent st = .ok (s, st') → st' = st) :=
  ⟨fun h => (stack_restore fuel).2.1 _ _ _ _ _ _ h,
   fun h => (stack_restore fuel).2.2.2.2.2.2 _ _ _ _ _ _ h,
   fun h => (stack_restore fuel).2.2.2.2.1 _ _ _ _ _ h,
   fun h => (stack_restore fuel).2.2.2.1 _ _ _ _ _ h⟩

/-- Claim C9 witness: a concrete option-block emission returns with the entry
stack `[0]`. -/
theorem C9_witness :
    build_options 5 "i" "file" (Node.list [Node.str "x"]) "" [0] =
      .ok ("file(\n      x\n);\n", [0]) ∧
    (([0] : List Nat) = [0]) :=
  ⟨rfl,
    (C9_stack_balanced 5 "i" "file" [] (Node.list [Node.str "x"]) "" [0]
        "file(\n      x\n);\n" [0]).2.1 rfl⟩

end SyslogNg
